import Mathlib

/-!
Verification development for the synthetic hospital-operations data generator
(`generator_core.py`).  The generator's pure core is shallowly embedded here:

* calendar dates are integers (days);
* money amounts are integers (PKR);
* the pseudo-random source is an explicit `Draws` record of streams, one per
  call site of the Python `random`/`faker` primitives; a uniform integer draw
  `randint(a, b)` is embedded as `a + x % (b - a + 1)` for a stream value `x`,
  and a uniform float draw in `[0, 1)` as an arbitrary rational stream value;
* file and database sinks are external collaborators: the run function
  returns the generated tables together with the Run Status record, the
  sequence of status steps written, and the list of database appends
  performed.
-/

set_option autoImplicit false

namespace AMC

/-! ### Decimal representation helpers

Python formats integers with `str` / `f"{n:06d}"`.  The embedding uses
`Nat.repr` for `str(n)`.  `decRepr` is a structurally transparent
specification of the decimal digit list which we relate to `Nat.repr`. -/

/-- Reference decimal representation: the digit characters of `n`, most
significant first.  `decRepr 0 = ['0']`. -/
def decRepr (n : Nat) : List Char :=
  if h : n < 10 then [Nat.digitChar n]
  else decRepr (n / 10) ++ [Nat.digitChar (n % 10)]
  decreasing_by exact Nat.div_lt_self (by omega) (by omega)

theorem decRepr_lt (n : Nat) (h : n < 10) : decRepr n = [Nat.digitChar n] := by
  rw [decRepr]
  simp [h]

theorem decRepr_ge (n : Nat) (h : ¬ n < 10) :
    decRepr n = decRepr (n / 10) ++ [Nat.digitChar (n % 10)] := by
  rw [decRepr]
  simp [h]

theorem decRepr_ne_nil (n : Nat) : decRepr n ≠ [] := by
  by_cases h : n < 10
  · rw [decRepr_lt n h]; simp
  · rw [decRepr_ge n h]; simp

/-- One unfolding step of `Nat.toDigitsCore` at base 10. -/
theorem toDigitsCore_step (fuel n : Nat) (ds : List Char) :
    Nat.toDigitsCore 10 (fuel + 1) n ds =
      if n / 10 = 0 then Nat.digitChar (n % 10) :: ds
      else Nat.toDigitsCore 10 fuel (n / 10) (Nat.digitChar (n % 10) :: ds) := rfl

/-- `Nat.toDigitsCore` with sufficient fuel produces `decRepr` onto the
accumulator. -/
theorem toDigitsCore_eq (fuel : Nat) : ∀ (n : Nat) (ds : List Char),
    n < 10 ^ (fuel + 1) → Nat.toDigitsCore 10 (fuel + 1) n ds = decRepr n ++ ds := by
  induction fuel with
  | zero =>
    intro n ds h
    have hn : n < 10 := by simpa using h
    have hdiv : n / 10 = 0 := Nat.div_eq_of_lt hn
    have hmod : n % 10 = n := Nat.mod_eq_of_lt hn
    rw [toDigitsCore_step, if_pos hdiv, hmod, decRepr_lt n hn]
    simp
  | succ fuel ih =>
    intro n ds h
    by_cases hn : n < 10
    · have hdiv : n / 10 = 0 := Nat.div_eq_of_lt hn
      have hmod : n % 10 = n := Nat.mod_eq_of_lt hn
      rw [toDigitsCore_step, if_pos hdiv, hmod, decRepr_lt n hn]
      simp
    · have hdiv : ¬ n / 10 = 0 := by
        intro h0
        exact hn (by omega)
      have hlt : n / 10 < 10 ^ (fuel + 1) := by
        apply (Nat.div_lt_iff_lt_mul (by omega)).mpr
        calc n < 10 ^ (fuel + 2) := h
        _ = 10 ^ (fuel + 1) * 10 := by ring
      rw [decRepr_ge n hn, toDigitsCore_step, if_neg hdiv]
      rw [ih (n / 10) (Nat.digitChar (n % 10) :: ds) hlt]
      simp

theorem repr_data (n : Nat) : (Nat.repr n).data = decRepr n := by
  have hfuel : n < 10 ^ (n + 1) := by
    calc n < 10 ^ n := Nat.lt_pow_self (by omega) n
    _ ≤ 10 ^ (n + 1) := Nat.pow_le_pow_right (by omega) (Nat.le_succ n)
  show (Nat.toDigits 10 n).asString.data = decRepr n
  rw [Nat.toDigits, toDigitsCore_eq n n [] hfuel]
  simp [List.asString]

theorem repr_length_eq (n : Nat) : (Nat.repr n).length = (decRepr n).length := by
  show (Nat.repr n).data.length = _
  rw [repr_data]

/-- Length of the decimal representation is at most `k + 1` for `n < 10 ^ (k + 1)`. -/
theorem decRepr_length_le (k : Nat) : ∀ n : Nat, n < 10 ^ (k + 1) →
    (decRepr n).length ≤ k + 1 := by
  induction k with
  | zero =>
    intro n h
    have hn : n < 10 := by simpa using h
    rw [decRepr_lt n hn]
    simp
  | succ k ih =>
    intro n h
    by_cases hn : n < 10
    · rw [decRepr_lt n hn]
      simp only [List.length_cons, List.length_nil]
      omega
    · rw [decRepr_ge n hn]
      have hlt : n / 10 < 10 ^ (k + 1) := by
        apply (Nat.div_lt_iff_lt_mul (by omega)).mpr
        calc n < 10 ^ (k + 2) := h
        _ = 10 ^ (k + 1) * 10 := by ring
      have := ih (n / 10) hlt
      simp only [List.length_append, List.length_cons, List.length_nil]
      omega

/-- Exact length: an integer in `[10 ^ k, 10 ^ (k + 1))` has `k + 1` decimal digits. -/
theorem decRepr_length_eq (k : Nat) : ∀ n : Nat, 10 ^ k ≤ n → n < 10 ^ (k + 1) →
    (decRepr n).length = k + 1 := by
  induction k with
  | zero =>
    intro n _ h2
    have hn : n < 10 := by simpa using h2
    rw [decRepr_lt n hn]
    simp
  | succ k ih =>
    intro n h1 h2
    have hn : ¬ n < 10 := by
      intro hlt
      have : (10 : Nat) ≤ 10 ^ (k + 1) := by
        calc (10 : Nat) = 10 ^ 1 := by ring
        _ ≤ 10 ^ (k + 1) := Nat.pow_le_pow_right (by omega) (by omega)
      omega
    rw [decRepr_ge n hn]
    have hlow : 10 ^ k ≤ n / 10 := by
      apply (Nat.le_div_iff_mul_le (by omega)).mpr
      calc 10 ^ k * 10 = 10 ^ (k + 1) := by ring
      _ ≤ n := h1
    have hhigh : n / 10 < 10 ^ (k + 1) := by
      apply (Nat.div_lt_iff_lt_mul (by omega)).mpr
      calc n < 10 ^ (k + 2) := h2
      _ = 10 ^ (k + 1) * 10 := by ring
    have := ih (n / 10) hlow hhigh
    simp only [List.length_append, List.length_cons, List.length_nil]
    omega

theorem digitChar_isDigit (d : Nat) (h : d < 10) : (Nat.digitChar d).isDigit = true := by
  interval_cases d <;> decide

theorem decRepr_all_digits (n : Nat) : ∀ c ∈ decRepr n, c.isDigit = true := by
  induction n using Nat.strong_induction_on with
  | _ n ih =>
    intro c hc
    by_cases hn : n < 10
    · rw [decRepr_lt n hn] at hc
      simp at hc
      subst hc
      exact digitChar_isDigit n hn
    · rw [decRepr_ge n hn] at hc
      rcases List.mem_append.mp hc with h | h
      · exact ih (n / 10) (Nat.div_lt_self (by omega) (by omega)) c h
      · simp at h
        subst h
        exact digitChar_isDigit (n % 10) (Nat.mod_lt n (by omega))

theorem digitChar_ne_zero_char (d : Nat) (h1 : 1 ≤ d) (h2 : d < 10) :
    Nat.digitChar d ≠ '0' := by
  interval_cases d <;> decide

theorem decRepr_head_ne_zero (n : Nat) (h : 1 ≤ n) :
    (decRepr n).head? ≠ some '0' := by
  induction n using Nat.strong_induction_on with
  | _ n ih =>
    by_cases hn : n < 10
    · rw [decRepr_lt n hn]
      simp
      exact digitChar_ne_zero_char n h hn
    · rw [decRepr_ge n hn]
      have hne := decRepr_ne_nil (n / 10)
      have hq : 1 ≤ n / 10 := by
        apply (Nat.le_div_iff_mul_le (by omega)).mpr
        omega
      have := ih (n / 10) (Nat.div_lt_self (by omega) (by omega)) hq
      cases hd : decRepr (n / 10) with
      | nil => exact absurd hd hne
      | cons a t =>
        rw [hd] at this
        simpa using this

theorem digitChar_inj (a b : Nat) (ha : a < 10) (hb : b < 10)
    (h : Nat.digitChar a = Nat.digitChar b) : a = b := by
  interval_cases a <;> interval_cases b <;> first | rfl | (exact absurd h (by decide))

theorem decRepr_inj (m : Nat) : ∀ n : Nat, decRepr m = decRepr n → m = n := by
  induction m using Nat.strong_induction_on with
  | _ m ih =>
    intro n h
    by_cases hm : m < 10 <;> by_cases hn : n < 10
    · rw [decRepr_lt m hm, decRepr_lt n hn] at h
      simp at h
      exact digitChar_inj m n hm hn h
    · rw [decRepr_lt m hm, decRepr_ge n hn] at h
      have hlen := congrArg List.length h
      simp only [List.length_cons, List.length_nil, List.length_append] at hlen
      have h0 : (decRepr (n / 10)).length = 0 := by omega
      exact absurd (List.length_eq_zero.mp h0) (decRepr_ne_nil (n / 10))
    · rw [decRepr_ge m hm, decRepr_lt n hn] at h
      have hlen := congrArg List.length h
      simp only [List.length_cons, List.length_nil, List.length_append] at hlen
      have h0 : (decRepr (m / 10)).length = 0 := by omega
      exact absurd (List.length_eq_zero.mp h0) (decRepr_ne_nil (m / 10))
    · rw [decRepr_ge m hm, decRepr_ge n hn] at h
      have h1 : decRepr (m / 10) = decRepr (n / 10) ∧
          Nat.digitChar (m % 10) = Nat.digitChar (n % 10) := by
        have hlen : (decRepr (m / 10)).length = (decRepr (n / 10)).length := by
          have := congrArg List.length h
          simp at this
          omega
        have := List.append_inj h hlen
        refine ⟨this.1, ?_⟩
        have := this.2
        simpa using this
      have hdiv : m / 10 = n / 10 :=
        ih (m / 10) (Nat.div_lt_self (by omega) (by omega)) (n / 10) h1.1
      have hmod : m % 10 = n % 10 :=
        digitChar_inj _ _ (Nat.mod_lt m (by omega)) (Nat.mod_lt n (by omega)) h1.2
      omega

/-! ### Zero padding (Python `f"{n:0wd}"`) -/

/-- Python `f"{n:0wd}"`: decimal representation of `n` left-padded with zeros
to width `w` (never truncates). -/
def padZ (w n : Nat) : List Char :=
  List.replicate (w - (Nat.repr n).length) '0' ++ (Nat.repr n).data

theorem padZ_length (w n : Nat) (h : (Nat.repr n).length ≤ w) :
    (padZ w n).length = w := by
  show (List.replicate (w - (Nat.repr n).length) '0' ++ (Nat.repr n).data).length = w
  have : (Nat.repr n).data.length = (Nat.repr n).length := rfl
  simp only [List.length_append, List.length_replicate, this]
  omega

theorem replicate_zero_cancel : ∀ (a b : Nat) (l1 l2 : List Char),
    l1.head? ≠ some '0' → l2.head? ≠ some '0' →
    List.replicate a '0' ++ l1 = List.replicate b '0' ++ l2 → l1 = l2 := by
  intro a
  induction a with
  | zero =>
    intro b l1 l2 h1 h2 heq
    cases b with
    | zero => simpa using heq
    | succ b =>
      simp only [List.replicate, List.nil_append, List.cons_append] at heq
      rw [heq] at h1
      simp at h1
  | succ a ih =>
    intro b l1 l2 h1 h2 heq
    cases b with
    | zero =>
      simp only [List.replicate, List.nil_append, List.cons_append] at heq
      rw [← heq] at h2
      simp at h2
    | succ b =>
      simp only [List.replicate, List.cons_append] at heq
      exact ih b l1 l2 h1 h2 (by simpa using heq)

theorem padZ_inj (w m n : Nat) (hm : 1 ≤ m) (hn : 1 ≤ n)
    (h : padZ w m = padZ w n) : m = n := by
  apply decRepr_inj
  apply replicate_zero_cancel (w - (Nat.repr m).length) (w - (Nat.repr n).length)
  · exact decRepr_head_ne_zero m hm
  · exact decRepr_head_ne_zero n hn
  · have h2 : List.replicate (w - (Nat.repr m).length) '0' ++ (Nat.repr m).data
        = List.replicate (w - (Nat.repr n).length) '0' ++ (Nat.repr n).data := h
    rw [repr_data m, repr_data n] at h2
    exact h2

/-! ### The weighted sampler (`weighted_choice`, generator_core.py lines 369-378) -/

/-- The `for option, weight in options_with_weights` loop body of
`weighted_choice`: returns the first option whose cumulative weight reaches
the draw `r`, or `none` if the list is exhausted. -/
def wcLoop {α : Type} (pairs : List (α × ℚ)) (upto r : ℚ) : Option α :=
  match pairs with
  | [] => none
  | (o, w) :: rest => if upto + w ≥ r then some o else wcLoop rest (upto + w) r

/-- `weighted_choice(options_with_weights)` with the uniform draw
`r = random.uniform(0, total)` made explicit.  On an empty list the initial
`options, weights = zip(*options_with_weights)` unpacking raises `ValueError`,
embedded as `Except.error`; otherwise the loop runs and falls back to the
last option (`return options[-1]`). -/
def weighted_choice {α : Type} : List (α × ℚ) → ℚ → Except String α
  | [], _ => Except.error "ValueError: not enough values to unpack (expected 2, got 0)"
  | (p :: ps), r =>
    Except.ok ((wcLoop (p :: ps) 0 r).getD ((p :: ps).getLast (List.cons_ne_nil p ps)).1)

/-- Total version used by the generators at call sites whose catalog argument
is a concrete non-empty list (the default is unreachable there). -/
def wcRun {α : Type} (pairs : List (α × ℚ)) (r : ℚ) (dflt : α) : α :=
  match weighted_choice pairs r with
  | Except.ok a => a
  | Except.error _ => dflt

/-- `random.choices(items, weights)[0]`: cumulative-weight selection of a
single item, draw `r = random.random() * total`; the bisection is capped at
the last index. -/
def choicesLoop {α : Type} (pairs : List (α × ℚ)) (r : ℚ) : Option α :=
  match pairs with
  | [] => none
  | (o, w) :: rest => if r < w then some o else choicesLoop rest (r - w)

def random_choices_one {α : Type} (pairs : List (α × ℚ)) (r : ℚ) (dflt : α) : α :=
  (choicesLoop pairs r).getD (((pairs.getLast?).getD (dflt, 0)).1)

/-- Python `dict.get(k, dflt)` over an association-list rate card. -/
def dictGetI (m : List (String × Int)) (k : String) (dflt : Int) : Int :=
  (m.lookup k).getD dflt

/-! ### Catalog data (generator_core.py lines 216-352) -/

def pk_cities : List String := [
  "Karachi", "Lahore", "Islamabad", "Rawalpindi", "Faisalabad", "Multan",
  "Peshawar", "Quetta", "Sialkot", "Hyderabad", "Gujranwala", "Sukkur",
  "Bahawalpur", "Mardan", "Abbottabad", "Jhelum", "Murree", "Sahiwal",
  "Okara", "Sheikhupura", "Rahim Yar Khan", "Gujrat", "Kasur", "Mianwali",
  "Sargodha", "Chiniot", "Kot Addu", "Hafizabad", "Kohat", "Jacobabad",
  "Shikarpur", "Muzaffargarh", "Khanpur", "Hala", "Kandhkot", "Bhakkar",
  "Zhob", "Dera Ismail Khan", "Pakpattan", "Tando Allahyar", "Ahmadpur East",
  "Kamalia", "Khuzdar", "Vihari", "New Mirpur", "Kohat", "Dadu", "Gojra",
  "Mandi Bahauddin", "Hassan Abdal", "Muzaffarabad", "Eminabad", "Nankana Sahib",
  "Larkana", "Chakwal", "Toba Tek Singh", "Khanewal", "Hafizabad", "Attock",
  "Arifwala", "Shahkot", "Mian Channu", "Layyah", "Chishtian", "Hasilpur",
  "Ahmadpur Sial", "Burewala", "Jalalpur Jattan", "Haroonabad", "Kahror Pakka",
  "Tandlianwala", "Dera Ghazi Khan", "Shujaabad", "Kabirwala", "Mansehra",
  "Nowshera", "Charsadda", "Qila Abdullah", "Swabi", "Tank", "Dera Bugti",
  "Kohlu", "Mastung", "Kalat", "Nushki", "Panjgur", "Turbat", "Gwadar",
  "Pasni", "Ormara", "Jiwani", "Kech", "Awaran", "Kharan", "Washuk",
  "Lasbela", "Kech", "Killa Saifullah", "Sherani", "Barkhan", "Musakhel",
  "Zhob", "Killa Abdullah", "Pishin", "Quetta", "Mastung", "Kalat",
  "Nushki", "Panjgur", "Turbat", "Gwadar", "Pasni", "Ormara", "Jiwani"]

def pk_departments : List String := [
  "Internal Medicine", "General Surgery", "Pediatrics", "ICU", "Cardiology",
  "Orthopedics & Trauma", "Gynecology & Obstetrics", "ENT", "Neurology",
  "Dermatology", "Ophthalmology", "Urology", "Nephrology", "Gastroenterology",
  "Pulmonology", "Endocrinology", "Hematology", "Oncology", "Psychiatry",
  "Radiology", "Pathology", "Anesthesiology", "Emergency Medicine", "Plastic Surgery",
  "Neurosurgery", "Cardiothoracic Surgery", "Vascular Surgery", "Pediatric Surgery",
  "Maxillofacial Surgery", "Burn Unit", "NICU", "PICU", "CCU", "HDU",
  "Dialysis Unit", "Chemotherapy Unit", "Radiotherapy Unit", "Blood Bank",
  "Pharmacy", "Physiotherapy", "Occupational Therapy", "Speech Therapy",
  "Nutrition & Dietetics", "Social Services", "Medical Records", "Quality Assurance"]

def ward_types : List String := ["General", "Semi-private", "Private", "Executive", "ICU"]

/-- Per-day PKR rate card, with the selection weights of
`random.choices(ward_types, weights=[40, 25, 20, 5, 10])` kept alongside. -/
def ward_rate_pkr : List (String × Int) := [
  ("General", 4500), ("Semi-private", 6000), ("Private", 7500),
  ("Executive", 10000), ("ICU", 18000)]

def ward_type_weights : List (String × ℚ) := [
  ("General", 40), ("Semi-private", 25), ("Private", 20), ("Executive", 5), ("ICU", 10)]

def panels : List String := [
  "IGI Life", "TPL Life", "EFU Allianz", "State Life", "Adabjee",
  "Abbott", "Qatar Takaful", "Government Org"]

def surname_weights : List (String × ℚ) := [
  ("Raja", 30), ("Satti", 20), ("Abbasi", 15), ("Khan", 10),
  ("Bhatti", 10), ("Mughal", 10), ("Sardar", 5)]

def lab_tests_catalog : List (String × ℚ) := [
  ("CBC", 0.15), ("LFT", 0.08), ("KFT", 0.08), ("CRP", 0.06), ("Glucose Fasting", 0.05),
  ("HbA1c", 0.04), ("Lipid Profile", 0.04), ("Urine R/E", 0.05), ("Thyroid Profile", 0.04),
  ("D-Dimer", 0.03), ("PT/INR", 0.03), ("COVID PCR", 0.02), ("Malaria ICT", 0.02),
  ("ESR", 0.03), ("Blood Group", 0.02), ("Hepatitis B Surface Ag", 0.02),
  ("Hepatitis C Antibody", 0.02),
  ("HIV Screening", 0.01), ("VDRL", 0.01), ("Stool R/E", 0.02), ("Sputum AFB", 0.01),
  ("Blood Culture", 0.02), ("Urine Culture", 0.02), ("Widal Test", 0.01), ("Dengue NS1", 0.01),
  ("Dengue IgG/IgM", 0.01), ("Chikungunya", 0.01), ("Troponin I", 0.02), ("CK-MB", 0.02),
  ("BNP", 0.01), ("Ferritin", 0.02), ("Vitamin B12", 0.02), ("Vitamin D", 0.02),
  ("PSA", 0.01), ("CA-125", 0.01), ("CEA", 0.01), ("AFP", 0.01),
  ("Hb Electrophoresis", 0.01), ("G6PD", 0.01), ("Coomb\x27s Test", 0.01), ("Cross Match", 0.01),
  ("Bone Marrow Aspiration", 0.005), ("Lumbar Puncture", 0.005), ("Pleural Fluid Analysis", 0.005),
  ("Ascitic Fluid Analysis", 0.005), ("CSF Analysis", 0.005), ("Synovial Fluid Analysis", 0.005)]

def lab_rate_pkr : List (String × Int) := [
  ("CBC", 600), ("LFT", 1200), ("KFT", 1200), ("CRP", 900), ("Glucose Fasting", 350),
  ("HbA1c", 1400), ("Lipid Profile", 1800), ("Urine R/E", 500), ("Thyroid Profile", 2200),
  ("D-Dimer", 2500), ("PT/INR", 1000), ("COVID PCR", 2500), ("Malaria ICT", 700),
  ("ESR", 400), ("Blood Group", 300), ("Hepatitis B Surface Ag", 800),
  ("Hepatitis C Antibody", 800),
  ("HIV Screening", 1200), ("VDRL", 600), ("Stool R/E", 400), ("Sputum AFB", 500),
  ("Blood Culture", 1500), ("Urine Culture", 1000), ("Widal Test", 600), ("Dengue NS1", 1200),
  ("Dengue IgG/IgM", 1000), ("Chikungunya", 1000), ("Troponin I", 2000), ("CK-MB", 1500),
  ("BNP", 3000), ("Ferritin", 1000), ("Vitamin B12", 1200), ("Vitamin D", 1500),
  ("PSA", 1000), ("CA-125", 2000), ("CEA", 1500), ("AFP", 1500),
  ("Hb Electrophoresis", 2000), ("G6PD", 800), ("Coomb\x27s Test", 1000), ("Cross Match", 800),
  ("Bone Marrow Aspiration", 5000), ("Lumbar Puncture", 3000), ("Pleural Fluid Analysis", 1500),
  ("Ascitic Fluid Analysis", 1500), ("CSF Analysis", 2000), ("Synovial Fluid Analysis", 1500)]

def diagnostics_catalog : List (String × ℚ) := [
  ("X-Ray", 0.25), ("Ultrasound", 0.20), ("CT Scan", 0.10), ("MRI", 0.06),
  ("Echo", 0.08), ("ECG", 0.08), ("Stress Test", 0.03), ("Holter Monitor", 0.02),
  ("Mammography", 0.02), ("Bone Densitometry", 0.01), ("PET Scan", 0.005),
  ("Nuclear Medicine Scan", 0.01), ("Angiography", 0.01), ("Colonoscopy", 0.01),
  ("Endoscopy", 0.02), ("Bronchoscopy", 0.01), ("Cystoscopy", 0.01),
  ("Laparoscopy", 0.01), ("Arthroscopy", 0.005), ("ERCP", 0.005),
  ("Cardiac Catheterization", 0.005), ("Pacemaker Check", 0.01), ("Echocardiogram", 0.03),
  ("TEE", 0.01), ("Stress Echo", 0.01), ("Carotid Doppler", 0.01),
  ("Biopsy", 0.01), ("Fine Needle Aspiration", 0.01), ("Pleural Tap", 0.005),
  ("Ascitic Tap", 0.005), ("Lumbar Puncture", 0.005), ("Bone Marrow Biopsy", 0.005)]

def diagnostics_rate_pkr : List (String × Int) := [
  ("X-Ray", 1200), ("Ultrasound", 2500), ("CT Scan", 7000), ("MRI", 12000),
  ("Echo", 3500), ("ECG", 800),
  ("Stress Test", 5000), ("Holter Monitor", 3000), ("Mammography", 4000),
  ("Bone Densitometry", 3000),
  ("PET Scan", 25000), ("Nuclear Medicine Scan", 8000), ("Angiography", 15000),
  ("Colonoscopy", 8000),
  ("Endoscopy", 6000), ("Bronchoscopy", 8000), ("Cystoscopy", 5000), ("Laparoscopy", 12000),
  ("Arthroscopy", 15000), ("ERCP", 10000), ("Cardiac Catheterization", 20000),
  ("Pacemaker Check", 2000),
  ("Echocardiogram", 4000), ("TEE", 6000), ("Stress Echo", 6000), ("Carotid Doppler", 3000),
  ("Biopsy", 3000), ("Fine Needle Aspiration", 2000), ("Pleural Tap", 2000),
  ("Ascitic Tap", 2000),
  ("Lumbar Puncture", 3000), ("Bone Marrow Biopsy", 5000)]

def medication_catalog : List (String × Int) := [
  ("Paracetamol 500mg", 12), ("Amoxicillin 500mg", 35), ("Ceftriaxone 1g", 180),
  ("Omeprazole 20mg", 25), ("Metformin 500mg", 18), ("Losartan 50mg", 30),
  ("Atorvastatin 20mg", 45), ("Azithromycin 500mg", 90), ("Insulin 10ml", 550),
  ("Ciprofloxacin 500mg", 40), ("Levofloxacin 500mg", 60), ("Clarithromycin 500mg", 80),
  ("Doxycycline 100mg", 25), ("Cefixime 200mg", 120), ("Cefuroxime 250mg", 100),
  ("Vancomycin 500mg", 300), ("Meropenem 1g", 800), ("Imipenem 500mg", 600),
  ("Amlodipine 5mg", 20), ("Enalapril 5mg", 15), ("Bisoprolol 5mg", 25),
  ("Digoxin 0.25mg", 8), ("Warfarin 5mg", 12), ("Clopidogrel 75mg", 35),
  ("Aspirin 75mg", 5), ("Nitroglycerin 0.5mg", 15), ("Furosemide 40mg", 10),
  ("Glibenclamide 5mg", 8), ("Gliclazide 80mg", 12), ("Pioglitazone 15mg", 25),
  ("Sitagliptin 50mg", 45), ("Empagliflozin 10mg", 60), ("Dapagliflozin 10mg", 55),
  ("Salbutamol Inhaler", 120), ("Budesonide Inhaler", 200), ("Theophylline 200mg", 20),
  ("Montelukast 10mg", 30), ("Prednisolone 5mg", 8), ("Dexamethasone 0.5mg", 5),
  ("Ranitidine 150mg", 15), ("Pantoprazole 40mg", 35), ("Domperidone 10mg", 12),
  ("Ondansetron 4mg", 25), ("Loperamide 2mg", 8), ("Lactulose 10ml", 20),
  ("Ibuprofen 400mg", 15), ("Diclofenac 50mg", 12), ("Tramadol 50mg", 20),
  ("Morphine 10mg", 25), ("Pethidine 50mg", 30), ("Ketorolac 10mg", 18),
  ("Fluoxetine 20mg", 25), ("Sertraline 50mg", 30), ("Amitriptyline 25mg", 15),
  ("Lorazepam 1mg", 20), ("Diazepam 5mg", 18), ("Haloperidol 5mg", 12),
  ("Levothyroxine 50mcg", 20), ("Warfarin 5mg", 12), ("Allopurinol 100mg", 15),
  ("Colchicine 0.5mg", 25), ("Methotrexate 2.5mg", 30), ("Hydroxychloroquine 200mg", 35)]

theorem wcLoop_mem {α : Type} (pairs : List (α × ℚ)) : ∀ (upto r : ℚ) (a : α),
    wcLoop pairs upto r = some a → a ∈ pairs.map Prod.fst := by
  induction pairs with
  | nil => intro upto r a h; simp [wcLoop] at h
  | cons p ps ih =>
    intro upto r a h
    rw [wcLoop] at h
    by_cases hc : upto + p.2 ≥ r
    · simp [hc] at h
      simp [← h]
    · simp [hc] at h
      simp only [List.map_cons, List.mem_cons]
      exact Or.inr (ih (upto + p.2) r a h)

/-! ### Entity records (generator_core.py historic generators) -/

structure Patient where
  patient_id : String
  name : String
  gender : String
  dob : Int
  city : String
  cnic : String
  phone : String
  email : String
  panel : Bool
  panel_name : Option String
deriving DecidableEq, Repr

structure Admission where
  admission_id : String
  patient_id : String
  admit_dt : Int
  discharge_dt : Int
  department : String
  ward_type : String
  outcome : String
deriving DecidableEq, Repr

structure Lab where
  lab_id : String
  admission_id : String
  patient_id : String
  test_name : String
  ordered_dt : Int
  result_value : ℚ
  unit : String
  price_pkr : Int
deriving DecidableEq, Repr

structure Diagnostic where
  diagnostic_id : String
  admission_id : String
  patient_id : String
  modality : String
  performed_dt : Int
  price_pkr : Int
deriving DecidableEq, Repr

structure Medication where
  med_id : String
  admission_id : String
  patient_id : String
  drug_name : String
  qty : Int
  unit_price_pkr : Int
  total_price_pkr : Int
deriving DecidableEq, Repr

structure OccRow where
  date : Int
  department : String
  ward_type : String
  admission_id : String
  patient_id : String
deriving DecidableEq, Repr

structure Revenue where
  admission_id : String
  patient_id : String
  ward_type : String
  los_days : Int
  room_rev_pkr : Int
  lab_rev_pkr : Int
  diag_rev_pkr : Int
  pharmacy_rev_pkr : Int
  total_rev_pkr : Int
deriving DecidableEq, Repr

/-- The explicit random source for one historic run: one stream per call
site of `random`/`faker` primitives, indexed by the loop indices.  Where the
Python code draws `randint(a, b)` or `random.choice(lst)`, the stream holds an
unconstrained natural that the generator reduces with `% (b - a + 1)` or
`% lst.length`; where it draws `random.random()`/`random.uniform`, the stream
holds a rational. -/
structure Draws where
  firstNameM : Nat → String
  firstNameF : Nat → String
  genderIdx : Nat → Nat
  surnameR : Nat → ℚ
  panelU : Nat → ℚ
  dobDate : Nat → Int
  cityIdx : Nat → Nat
  cnic1 : Nat → Nat
  cnic2 : Nat → Nat
  cnic3 : Nat → Nat
  phoneChoiceIdx : Nat → Nat
  phoneD1 : Nat → Nat
  phoneD2 : Nat → Nat
  phoneRest : Nat → Nat
  emailStr : Nat → String
  panelIdx : Nat → Nat
  admitIdx : Nat → Nat
  losIdx : Nat → Nat
  patientIdx : Nat → Nat
  deptIdx : Nat → Nat
  wardR : Nat → ℚ
  outcomeIdx : Nat → Nat
  labGauss : Nat → Int
  labTestR : Nat → Nat → ℚ
  labDayIdx : Nat → Nat → Nat
  labResult : Nat → Nat → ℚ
  diagU : Nat → ℚ
  diagR : Nat → ℚ
  diagDayIdx : Nat → Nat
  medU : Nat → ℚ
  medIdx : Nat → Nat → Nat
  medQtyIdx : Nat → Nat → Nat

/-! ### Identity synthesizer (generator_core.py lines 354-384) -/

/-- `generate_cnic`: `f"{randint(10000,99999)}-{randint(1000000,9999999)}-{randint(0,9)}"`. -/
def generate_cnic (x1 x2 x3 : Nat) : String :=
  Nat.repr (10000 + x1 % 90000) ++ "-" ++ Nat.repr (1000000 + x2 % 9000000) ++ "-"
    ++ Nat.repr (x3 % 10)

/-- `generate_pk_phone`: both branches of the final `if` return
`prefix + "-" + rest`. -/
def generate_pk_phone (cIdx d1 d2 restx : Nat) : String :=
  let pfx := (["+92-3", "03"].getD (cIdx % 2) "") ++ Nat.repr (d1 % 10) ++ Nat.repr (d2 % 10)
  let rest := Nat.repr (1000000 + restx % 9000000)
  pfx ++ "-" ++ rest

/-! ### Patients (generator_core.py lines 385-399) -/

def mkPatientH (d : Draws) (i : Nat) : Patient :=
  let gender := ["M", "F"].getD (d.genderIdx i % 2) "M"
  let firstName := if gender = "M" then d.firstNameM i else d.firstNameF i
  let surname := wcRun surname_weights (d.surnameR i) ""
  let isPanel : Bool := decide (d.panelU i < (0.28 : ℚ))
  { patient_id := String.mk ('P' :: padZ 6 (i + 1))
    name := firstName ++ " " ++ surname
    gender := gender
    dob := d.dobDate i
    city := pk_cities.getD (d.cityIdx i % pk_cities.length) ""
    cnic := generate_cnic (d.cnic1 i) (d.cnic2 i) (d.cnic3 i)
    phone := generate_pk_phone (d.phoneChoiceIdx i) (d.phoneD1 i) (d.phoneD2 i) (d.phoneRest i)
    email := d.emailStr i
    panel := isPanel
    panel_name := if isPanel then some (panels.getD (d.panelIdx i % panels.length) "") else none }

/-! ### Admissions (generator_core.py lines 406-423) -/

def mkAdmissionH (startD endD : Int) (patientIds : List String) (d : Draws) (i : Nat) :
    Admission :=
  let span : Nat := (endD - startD).toNat + 1
  let admitDt : Int := startD + ((d.admitIdx i % span : Nat) : Int)
  let losDays : Int := 1 + ((d.losIdx i % 12 : Nat) : Int)
  { admission_id := String.mk ('A' :: padZ 6 (i + 1))
    patient_id := patientIds.getD (d.patientIdx i % patientIds.length) ""
    admit_dt := admitDt
    discharge_dt := admitDt + losDays
    department := pk_departments.getD (d.deptIdx i % pk_departments.length) ""
    ward_type := random_choices_one ward_type_weights (d.wardR i) ""
    outcome := ["Discharged", "Referred", "Expired"].getD (d.outcomeIdx i % 3) "" }

/-! ### Labs, Diagnostics, Medications (generator_core.py lines 427-484) -/

def labsFor (d : Draws) (i : Nat) (adm : Admission) : List Lab :=
  let k : Nat := (max 1 (d.labGauss i)).toNat
  (List.range k).map (fun j =>
    let testName := wcRun lab_tests_catalog (d.labTestR i j) ""
    let hi : Nat := (max 0 (adm.discharge_dt - adm.admit_dt)).toNat
    { lab_id := String.mk ('L' :: padZ 6 (i + 1)) ++ "_" ++ Nat.repr (j + 1)
      admission_id := adm.admission_id
      patient_id := adm.patient_id
      test_name := testName
      ordered_dt := adm.admit_dt + ((d.labDayIdx i j % (hi + 1) : Nat) : Int)
      result_value := d.labResult i j
      unit := "arb"
      price_pkr := dictGetI lab_rate_pkr testName 800 })

/-- `for i, adm in enumerate(admissions)` for labs. -/
def labsAll (d : Draws) : List Admission → Nat → List Lab
  | [], _ => []
  | a :: rest, i => labsFor d i a ++ labsAll d rest (i + 1)

def diagsFor (d : Draws) (i : Nat) (adm : Admission) : List Diagnostic :=
  if decide (d.diagU i < (0.70 : ℚ)) then
    let modal := wcRun diagnostics_catalog (d.diagR i) ""
    let hi : Nat := (max 0 (adm.discharge_dt - adm.admit_dt)).toNat
    [{ diagnostic_id := String.mk ('D' :: padZ 6 (i + 1))
       admission_id := adm.admission_id
       patient_id := adm.patient_id
       modality := modal
       performed_dt := adm.admit_dt + ((d.diagDayIdx i % (hi + 1) : Nat) : Int)
       price_pkr := dictGetI diagnostics_rate_pkr modal 1500 }]
  else []

def diagsAll (d : Draws) : List Admission → Nat → List Diagnostic
  | [], _ => []
  | a :: rest, i => diagsFor d i a ++ diagsAll d rest (i + 1)

def medsFor (d : Draws) (i : Nat) (adm : Admission) : List Medication :=
  let k : Nat := if decide (d.medU i < (0.5 : ℚ)) then 1 else 2
  (List.range k).map (fun j =>
    let pair := medication_catalog.getD (d.medIdx i j % medication_catalog.length) ("", 0)
    let qty : Int := 1 + ((d.medQtyIdx i j % 10 : Nat) : Int)
    { med_id := String.mk ('M' :: padZ 6 (i + 1)) ++ "_" ++ Nat.repr (j + 1)
      admission_id := adm.admission_id
      patient_id := adm.patient_id
      drug_name := pair.1
      qty := qty
      unit_price_pkr := pair.2
      total_price_pkr := pair.2 * qty })

def medsAll (d : Draws) : List Admission → Nat → List Medication
  | [], _ => []
  | a :: rest, i => medsFor d i a ++ medsAll d rest (i + 1)

/-! ### Occupancy (generator_core.py lines 487-507) -/

/-- The dates visited by `current = admit_dt; while current <= discharge_dt:
 ...; current += timedelta(days=1)`. -/
def occDates (lo hi : Int) : List Int :=
  (List.range ((hi + 1 - lo).toNat)).map (fun (k : Nat) => lo + (k : Int))

def occRowsFor (adm : Admission) : List OccRow :=
  (occDates adm.admit_dt adm.discharge_dt).map (fun dt =>
    { date := dt
      department := adm.department
      ward_type := adm.ward_type
      admission_id := adm.admission_id
      patient_id := adm.patient_id })

def occKey (r : OccRow) : Int × String × String := (r.date, r.department, r.ward_type)

/-- `df_occupancy.groupby(["date", "department", "ward_type"]).size()`:
one output row per distinct key, holding the number of expansion rows with
that key (`beds_occupied`). -/
def occupancy_agg (rows : List OccRow) : List ((Int × String × String) × Nat) :=
  ((rows.map occKey).dedup).map (fun k => (k, rows.countP (fun r => decide (occKey r = k))))

/-! ### Revenue (generator_core.py lines 510-535) -/

/-- `df_labs.groupby("admission_id")["price_pkr"].sum()` then `.get(id, 0)`. -/
def labRevOf (labs : List Lab) (aid : String) : Int :=
  ((labs.filter (fun l => decide (l.admission_id = aid))).map Lab.price_pkr).sum

def diagRevOf (diags : List Diagnostic) (aid : String) : Int :=
  ((diags.filter (fun g => decide (g.admission_id = aid))).map Diagnostic.price_pkr).sum

def medRevOf (meds : List Medication) (aid : String) : Int :=
  ((meds.filter (fun m => decide (m.admission_id = aid))).map Medication.total_price_pkr).sum

/-- Python `x or 1` for an integer `x`. -/
def pyOrOne (x : Int) : Int := if x = 0 then 1 else x

def revenueFor (labs : List Lab) (diags : List Diagnostic) (meds : List Medication)
    (adm : Admission) : Revenue :=
  let los : Int := pyOrOne (adm.discharge_dt - adm.admit_dt)
  let room : Int := dictGetI ward_rate_pkr adm.ward_type 4500 * los
  let labRev : Int := labRevOf labs adm.admission_id
  let diagRev : Int := diagRevOf diags adm.admission_id
  let medRev : Int := medRevOf meds adm.admission_id
  { admission_id := adm.admission_id
    patient_id := adm.patient_id
    ward_type := adm.ward_type
    los_days := los
    room_rev_pkr := room
    lab_rev_pkr := labRev
    diag_rev_pkr := diagRev
    pharmacy_rev_pkr := medRev
    total_rev_pkr := room + labRev + diagRev + medRev }

/-! ### Run Status and the historic orchestrator (generator_core.py 201-573) -/

structure RunStatus where
  mode : Option String := none
  outdir : Option String := none
  step : Option String := none
  db_url : Option String := none
  db_connected : Option Bool := none
  db_error : Option String := none
  db_write_ok : Option Bool := none
  db_write_error : Option String := none
  patients : Option Nat := none
  admissions : Option Nat := none
  labs : Option Nat := none
  diagnostics : Option Nat := none
  medications : Option Nat := none
  revenue_rows : Option Nat := none
deriving DecidableEq, Repr

structure RunResult where
  patients : List Patient
  admissions : List Admission
  labs : List Lab
  diagnostics : List Diagnostic
  medications : List Medication
  occ_rows : List OccRow
  occupancy : List ((Int × String × String) × Nat)
  revenue : List Revenue
  status : RunStatus
  steps : List String
  db_appends : List (String × Nat)
deriving DecidableEq, Repr

/-- The `step` values written to Run Status by one historic run, in order.
The sequence is straight-line: database failures are caught inside
`_get_engine` / the write `try`, so every step is always reached. -/
def historic_steps : List String :=
  ["init", "patients", "admissions", "labs", "diagnostics", "medications",
   "occupancy", "revenue", "db_write", "done"]

/-- `generate_historic_data(start_date, end_date, num_patients, outdir, db_url)`.
The file sink (`save_dataframe`) and cloud uploads are external collaborators
and are not modelled; `dbOk` is the outcome of the single `_get_engine`
connectivity check, `dbWriteOk` the outcome of the bulk `to_sql` block
(modelled as failing before the first append succeeds), `dbErr` the exception
text recorded on a failed connection. -/
def generate_historic_data (startD endD : Int) (num_patients : Nat) (outdir db_url : String)
    (d : Draws) (dbOk dbWriteOk : Bool) (dbErr : String) : RunResult :=
  let patients := (List.range num_patients).map (mkPatientH d)
  let patientIds := patients.map Patient.patient_id
  let num_admissions := num_patients * 3
  let admissions := (List.range num_admissions).map (mkAdmissionH startD endD patientIds d)
  let labs := labsAll d admissions 0
  let diags := diagsAll d admissions 0
  let meds := medsAll d admissions 0
  let occRows := (admissions.map occRowsFor).flatten
  let occAgg := occupancy_agg occRows
  let revenue := admissions.map (revenueFor labs diags meds)
  let dbAppends : List (String × Nat) :=
    if dbOk then
      if dbWriteOk then
        [("Patients", patients.length), ("Admissions", admissions.length)]
          ++ (if labs.isEmpty then [] else [("Labs", labs.length)])
          ++ (if diags.isEmpty then [] else [("Diagnostics", diags.length)])
          ++ (if meds.isEmpty then [] else [("Medications", meds.length)])
          ++ (if revenue.isEmpty then [] else [("Revenue", revenue.length)])
      else []
    else []
  let status : RunStatus := {
    mode := some "historic"
    outdir := some outdir
    step := some "done"
    db_url := some db_url
    db_connected := some dbOk
    db_error := if dbOk then none else some dbErr
    db_write_ok := if dbOk then some dbWriteOk else none
    db_write_error := if dbOk then (if dbWriteOk then none else some "DB write failed") else none
    patients := some patients.length
    admissions := some admissions.length
    labs := some labs.length
    diagnostics := some diags.length
    medications := some meds.length
    revenue_rows := some revenue.length }
  { patients := patients
    admissions := admissions
    labs := labs
    diagnostics := diags
    medications := meds
    occ_rows := occRows
    occupancy := occAgg
    revenue := revenue
    status := status
    steps := historic_steps
    db_appends := dbAppends }

/-! ### The live tick (generator_core.py `_live_loop`, lines 576-656) -/

structure LivePatient where
  patient_id : String
  name : String
  gender : String
  dob : Int
  city : String
  cnic : String
  phone : String
  email : String
deriving DecidableEq, Repr

/-- Live admissions carry no `ward_type` key. -/
structure LiveAdmission where
  admission_id : String
  patient_id : String
  admit_dt : Int
  discharge_dt : Int
  department : String
  outcome : String
deriving DecidableEq, Repr

structure LiveDraws where
  nameStr : Nat → String
  genderIdx : Nat → Nat
  dobDate : Nat → Int
  cityIdx : Nat → Nat
  cnic1 : Nat → Nat
  cnic2 : Nat → Nat
  cnic3 : Nat → Nat
  phoneChoiceIdx : Nat → Nat
  phoneD1 : Nat → Nat
  phoneD2 : Nat → Nat
  phoneRest : Nat → Nat
  emailStr : Nat → String
  patientIdx : Nat → Nat
  losIdx : Nat → Nat
  deptIdx : Nat → Nat
  outcomeIdx : Nat → Nat

def live_pk_cities : List String := [
  "Karachi", "Lahore", "Islamabad", "Rawalpindi", "Faisalabad", "Multan",
  "Peshawar", "Quetta", "Sialkot", "Hyderabad", "Gujranwala", "Sukkur"]

def live_pk_departments : List String := [
  "Medicine", "Surgery", "Pediatrics", "ICU", "Cardiology", "Orthopedics",
  "Gynecology", "ENT", "Neurology"]

def mkLivePatient (batch : Nat) (d : LiveDraws) (i : Nat) : LivePatient :=
  { patient_id := String.mk ('L' :: 'P' :: (padZ 4 batch ++ '_' :: padZ 3 (i + 1)))
    name := d.nameStr i
    gender := ["M", "F"].getD (d.genderIdx i % 2) "M"
    dob := d.dobDate i
    city := live_pk_cities.getD (d.cityIdx i % live_pk_cities.length) ""
    cnic := generate_cnic (d.cnic1 i) (d.cnic2 i) (d.cnic3 i)
    phone := generate_pk_phone (d.phoneChoiceIdx i) (d.phoneD1 i) (d.phoneD2 i) (d.phoneRest i)
    email := d.emailStr i }

def mkLiveAdmission (batch : Nat) (today : Int) (patientIds : List String) (d : LiveDraws)
    (i : Nat) : LiveAdmission :=
  { admission_id := String.mk ('L' :: 'A' :: (padZ 4 batch ++ '_' :: padZ 3 (i + 1)))
    patient_id := patientIds.getD (d.patientIdx i % patientIds.length) ""
    admit_dt := today
    discharge_dt := today + (1 + ((d.losIdx i % 10 : Nat) : Int))
    department := live_pk_departments.getD (d.deptIdx i % live_pk_departments.length) ""
    outcome := ["Discharged", "Referred", "Expired"].getD (d.outcomeIdx i % 3) "" }

/-- One live tick: 3 patients and `num_new = 10` admissions dated today. -/
def live_tick (batch : Nat) (today : Int) (d : LiveDraws) :
    List LivePatient × List LiveAdmission :=
  let pats := (List.range 3).map (mkLivePatient batch d)
  let adms := (List.range 10).map (mkLiveAdmission batch today (pats.map LivePatient.patient_id) d)
  (pats, adms)

/-! ### Generic list-partition lemmas used for the occupancy aggregate -/

theorem sum_map_add_distrib {κ : Type} (K : List κ) (f g : κ → Nat) :
    (K.map (fun k => f k + g k)).sum = (K.map f).sum + (K.map g).sum := by
  induction K with
  | nil => simp
  | cons k t ih =>
    simp only [List.map_cons, List.sum_cons, ih]
    omega

theorem sum_map_indicator_zero {κ : Type} [DecidableEq κ] (K : List κ) (x : κ) (hx : x ∉ K) :
    (K.map (fun k => if x = k then 1 else 0)).sum = 0 := by
  induction K with
  | nil => simp
  | cons k t ih =>
    have hxk : ¬ x = k := fun h => hx (h ▸ List.mem_cons_self k t)
    have hxt : x ∉ t := fun h => hx (List.mem_cons_of_mem k h)
    simp only [List.map_cons, List.sum_cons, if_neg hxk, ih hxt]

theorem sum_map_indicator {κ : Type} [DecidableEq κ] (K : List κ) (x : κ) (hK : K.Nodup)
    (hx : x ∈ K) : (K.map (fun k => if x = k then 1 else 0)).sum = 1 := by
  induction K with
  | nil => cases hx
  | cons k t ih =>
    rcases List.mem_cons.mp hx with h | h
    · have hxt : x ∉ t := by
        subst h
        exact (List.nodup_cons.mp hK).1
      simp only [List.map_cons, List.sum_cons, if_pos h, sum_map_indicator_zero t x hxt]
    · have hxk : ¬ x = k := by
        intro he
        subst he
        exact (List.nodup_cons.mp hK).1 h
      simp only [List.map_cons, List.sum_cons, if_neg hxk]
      simpa using ih (List.nodup_cons.mp hK).2 h

/-- Fiberwise counting: summing, over a duplicate-free list of keys covering
the rows satisfying `p`, the number of rows with that key that satisfy `p`,
gives the total number of rows satisfying `p`. -/
theorem sum_countP_fiber {R κ : Type} [DecidableEq κ] (key : R → κ) (p : R → Bool) :
    ∀ (rows : List R) (K : List κ), K.Nodup → (∀ r ∈ rows, p r = true → key r ∈ K) →
    (K.map (fun k => rows.countP (fun r => decide (key r = k) && p r))).sum
      = rows.countP p := by
  intro rows
  induction rows with
  | nil =>
    intro K _ _
    simp [List.countP_nil]
  | cons r t ih =>
    intro K hnd hcov
    have hcovt : ∀ x ∈ t, p x = true → key x ∈ K := fun x hx hp =>
      hcov x (List.mem_cons_of_mem r hx) hp
    have hsplit : (K.map (fun k => (r :: t).countP (fun x => decide (key x = k) && p x)))
        = K.map (fun k => t.countP (fun x => decide (key x = k) && p x)
            + (if key r = k ∧ p r = true then 1 else 0)) := by
      apply List.map_congr_left
      intro k _
      rw [List.countP_cons]
      congr 1
      by_cases hk : key r = k <;> by_cases hp : p r = true <;> simp [hk, hp]
    rw [hsplit, sum_map_add_distrib, ih K hnd hcovt, List.countP_cons]
    congr 1
    by_cases hp : p r = true
    · have hkey : key r ∈ K := hcov r (List.mem_cons_self r t) hp
      have : (K.map (fun k => if key r = k ∧ p r = true then 1 else 0))
          = K.map (fun k => if key r = k then 1 else 0) := by
        apply List.map_congr_left
        intro k _
        by_cases hk : key r = k <;> simp [hk, hp]
      rw [this, sum_map_indicator K (key r) hnd hkey]
      simp [hp]
    · have : (K.map (fun k => if key r = k ∧ p r = true then 1 else 0))
          = K.map (fun _ => 0) := by
        apply List.map_congr_left
        intro k _
        simp [hp]
      rw [this]
      simp [hp]

/-- Summing any per-group quantity that depends only on the group key over
the rows of `occupancy_agg` is summing it over the distinct keys; applied to
"rows with this key satisfying `p`" it recovers the total `p`-count. -/
theorem occupancy_agg_sum (rows : List OccRow) (p : OccRow → Bool) :
    ((occupancy_agg rows).map
        (fun kc => rows.countP (fun r => decide (occKey r = kc.1) && p r))).sum
      = rows.countP p := by
  unfold occupancy_agg
  rw [List.map_map]
  have heq : ((fun kc : (Int × String × String) × Nat =>
        rows.countP (fun r => decide (occKey r = kc.1) && p r))
      ∘ (fun k => (k, rows.countP (fun r => decide (occKey r = k)))))
      = fun k => rows.countP (fun r => decide (occKey r = k) && p r) := rfl
  rw [heq]
  apply sum_countP_fiber occKey p rows _ (List.nodup_dedup _)
  intro r hr _
  exact List.mem_dedup.mpr (List.mem_map_of_mem occKey hr)

theorem occRowsFor_id (adm : Admission) : ∀ r ∈ occRowsFor adm,
    r.admission_id = adm.admission_id := by
  intro r hr
  unfold occRowsFor at hr
  rcases List.mem_map.mp hr with ⟨dt, _, hmk⟩
  rw [← hmk]

theorem occRowsFor_length (adm : Admission) (h : adm.admit_dt ≤ adm.discharge_dt) :
    (occRowsFor adm).length = (adm.discharge_dt - adm.admit_dt).toNat + 1 := by
  have h1 : (occRowsFor adm).length = (occDates adm.admit_dt adm.discharge_dt).length := by
    unfold occRowsFor
    simp
  have h2 : (occDates adm.admit_dt adm.discharge_dt).length
      = (adm.discharge_dt + 1 - adm.admit_dt).toNat := by
    unfold occDates
    rw [List.length_map, List.length_range]
  rw [h1, h2]
  omega

/-- With duplicate-free admission ids, the expansion rows carrying a given
admission's id are exactly that admission's own rows. -/
theorem countP_flatten_id : ∀ (adms : List Admission) (a : Admission), a ∈ adms →
    ((adms.map Admission.admission_id).Nodup) →
    ((adms.map occRowsFor).flatten.countP (fun r => decide (r.admission_id = a.admission_id)))
      = (occRowsFor a).length := by
  intro adms
  induction adms with
  | nil => intro a ha; cases ha
  | cons b t ih =>
    intro a ha hnd
    have hnd' : (b.admission_id :: t.map Admission.admission_id).Nodup := by simpa using hnd
    have hbt : b.admission_id ∉ t.map Admission.admission_id := (List.nodup_cons.mp hnd').1
    have hndt : (t.map Admission.admission_id).Nodup := (List.nodup_cons.mp hnd').2
    rw [List.map_cons, List.flatten_cons, List.countP_append]
    have hbrows : (occRowsFor b).countP (fun r => decide (r.admission_id = a.admission_id))
        = if b.admission_id = a.admission_id then (occRowsFor b).length else 0 := by
      by_cases hid : b.admission_id = a.admission_id
      · rw [if_pos hid]
        rw [List.countP_eq_length]
        intro r hr
        simp [occRowsFor_id b r hr, hid]
      · rw [if_neg hid]
        rw [List.countP_eq_zero]
        intro r hr
        simp [occRowsFor_id b r hr, hid]
    by_cases hid : b.admission_id = a.admission_id
    · have haeq : a = b := by
        rcases List.mem_cons.mp ha with h | h
        · exact h
        · exact absurd (hid ▸ List.mem_map_of_mem Admission.admission_id h) hbt
      have hzero : ((t.map occRowsFor).flatten.countP
          (fun r => decide (r.admission_id = a.admission_id))) = 0 := by
        rw [List.countP_eq_zero]
        intro r hr
        rcases List.mem_flatten.mp hr with ⟨l, hl, hrl⟩
        rcases List.mem_map.mp hl with ⟨c, hc, hcl⟩
        have hrc : r.admission_id = c.admission_id := occRowsFor_id c r (hcl ▸ hrl)
        have hne : c.admission_id ≠ a.admission_id := by
          intro he
          exact hbt (hid ▸ he ▸ List.mem_map_of_mem Admission.admission_id hc)
        simp [hrc, hne]
      rw [hbrows, if_pos hid, hzero, haeq]
      omega
    · have hat : a ∈ t := by
        rcases List.mem_cons.mp ha with h | h
        · exact absurd (h ▸ rfl) hid
        · exact h
      rw [hbrows, if_neg hid, ih a hat hndt]
      omega

/-! ### Characterization of generated admissions -/

theorem mkAdmissionH_gap (startD endD : Int) (pids : List String) (d : Draws) (i : Nat) :
    (mkAdmissionH startD endD pids d i).discharge_dt
        - (mkAdmissionH startD endD pids d i).admit_dt
      = 1 + ((d.losIdx i % 12 : Nat) : Int) := by
  show startD + ((d.admitIdx i % _ : Nat) : Int) + (1 + ((d.losIdx i % 12 : Nat) : Int))
      - (startD + ((d.admitIdx i % _ : Nat) : Int)) = 1 + ((d.losIdx i % 12 : Nat) : Int)
  omega

theorem mkAdmissionH_los_bounds (startD endD : Int) (pids : List String) (d : Draws) (i : Nat) :
    1 ≤ (mkAdmissionH startD endD pids d i).discharge_dt
        - (mkAdmissionH startD endD pids d i).admit_dt ∧
    (mkAdmissionH startD endD pids d i).discharge_dt
        - (mkAdmissionH startD endD pids d i).admit_dt ≤ 12 := by
  rw [mkAdmissionH_gap]
  have : d.losIdx i % 12 < 12 := Nat.mod_lt _ (by omega)
  omega

theorem string_mk_inj (l1 l2 : List Char) (h : String.mk l1 = String.mk l2) : l1 = l2 := by
  injection h

theorem admission_id_inj (startD endD : Int) (pids : List String) (d : Draws) :
    Function.Injective (fun i => (mkAdmissionH startD endD pids d i).admission_id) := by
  intro i j h
  have h2 : String.mk ('A' :: padZ 6 (i + 1)) = String.mk ('A' :: padZ 6 (j + 1)) := h
  have h3 := string_mk_inj _ _ h2
  have h4 : padZ 6 (i + 1) = padZ 6 (j + 1) := by
    injection h3
  have := padZ_inj 6 (i + 1) (j + 1) (by omega) (by omega) h4
  omega

theorem historic_adm_ids_nodup (startD endD : Int) (pids : List String) (d : Draws) (M : Nat) :
    (((List.range M).map (mkAdmissionH startD endD pids d)).map Admission.admission_id).Nodup := by
  rw [List.map_map]
  exact (List.nodup_range M).map (admission_id_inj startD endD pids d)

/-! ### Components of the historic run (definitional lemmas) -/

theorem run_patients_eq (startD endD : Int) (N : Nat) (outdir dburl : String) (d : Draws)
    (dbOk dbWriteOk : Bool) (dbErr : String) :
    (generate_historic_data startD endD N outdir dburl d dbOk dbWriteOk dbErr).patients
      = (List.range N).map (mkPatientH d) := rfl

theorem run_admissions_eq (startD endD : Int) (N : Nat) (outdir dburl : String) (d : Draws)
    (dbOk dbWriteOk : Bool) (dbErr : String) :
    (generate_historic_data startD endD N outdir dburl d dbOk dbWriteOk dbErr).admissions
      = (List.range (N * 3)).map
          (mkAdmissionH startD endD (((List.range N).map (mkPatientH d)).map Patient.patient_id) d)
      := rfl

theorem run_labs_eq (startD endD : Int) (N : Nat) (outdir dburl : String) (d : Draws)
    (dbOk dbWriteOk : Bool) (dbErr : String) :
    (generate_historic_data startD endD N outdir dburl d dbOk dbWriteOk dbErr).labs
      = labsAll d
          (generate_historic_data startD endD N outdir dburl d dbOk dbWriteOk dbErr).admissions 0
      := rfl

theorem run_diagnostics_eq (startD endD : Int) (N : Nat) (outdir dburl : String) (d : Draws)
    (dbOk dbWriteOk : Bool) (dbErr : String) :
    (generate_historic_data startD endD N outdir dburl d dbOk dbWriteOk dbErr).diagnostics
      = diagsAll d
          (generate_historic_data startD endD N outdir dburl d dbOk dbWriteOk dbErr).admissions 0
      := rfl

theorem run_occ_rows_eq (startD endD : Int) (N : Nat) (outdir dburl : String) (d : Draws)
    (dbOk dbWriteOk : Bool) (dbErr : String) :
    (generate_historic_data startD endD N outdir dburl d dbOk dbWriteOk dbErr).occ_rows
      = ((generate_historic_data startD endD N outdir dburl d dbOk dbWriteOk dbErr).admissions.map
          occRowsFor).flatten := rfl

theorem run_occupancy_eq (startD endD : Int) (N : Nat) (outdir dburl : String) (d : Draws)
    (dbOk dbWriteOk : Bool) (dbErr : String) :
    (generate_historic_data startD endD N outdir dburl d dbOk dbWriteOk dbErr).occupancy
      = occupancy_agg
          (generate_historic_data startD endD N outdir dburl d dbOk dbWriteOk dbErr).occ_rows
      := rfl

theorem run_revenue_eq (startD endD : Int) (N : Nat) (outdir dburl : String) (d : Draws)
    (dbOk dbWriteOk : Bool) (dbErr : String) :
    (generate_historic_data startD endD N outdir dburl d dbOk dbWriteOk dbErr).revenue
      = (generate_historic_data startD endD N outdir dburl d dbOk dbWriteOk dbErr).admissions.map
          (revenueFor
            (generate_historic_data startD endD N outdir dburl d dbOk dbWriteOk dbErr).labs
            (generate_historic_data startD endD N outdir dburl d dbOk dbWriteOk dbErr).diagnostics
            (generate_historic_data startD endD N outdir dburl d dbOk dbWriteOk dbErr).medications)
      := rfl

/-- Every admission of a historic run has `discharge - admit ∈ [1, 12]`. -/
theorem run_adm_los_bounds (startD endD : Int) (N : Nat) (outdir dburl : String) (d : Draws)
    (dbOk dbWriteOk : Bool) (dbErr : String) (a : Admission)
    (ha : a ∈ (generate_historic_data startD endD N outdir dburl d dbOk dbWriteOk dbErr).admissions) :
    1 ≤ a.discharge_dt - a.admit_dt ∧ a.discharge_dt - a.admit_dt ≤ 12 := by
  rw [run_admissions_eq] at ha
  rcases List.mem_map.mp ha with ⟨i, _, hmk⟩
  rw [← hmk]
  exact mkAdmissionH_los_bounds startD endD _ d i

/-! ### Labs and diagnostics helper lemmas -/

theorem labsAll_mem (d : Draws) : ∀ (adms : List Admission) (i0 : Nat) (l : Lab),
    l ∈ labsAll d adms i0 → ∃ i adm, adm ∈ adms ∧ l ∈ labsFor d i adm := by
  intro adms
  induction adms with
  | nil =>
    intro i0 l h
    simp [labsAll] at h
  | cons a rest ih =>
    intro i0 l h
    rw [labsAll] at h
    rcases List.mem_append.mp h with h | h
    · exact ⟨i0, a, List.mem_cons_self a rest, h⟩
    · rcases ih (i0 + 1) l h with ⟨i, adm, hmem, hl⟩
      exact ⟨i, adm, List.mem_cons_of_mem a hmem, hl⟩

theorem diagsAll_mem (d : Draws) : ∀ (adms : List Admission) (i0 : Nat) (g : Diagnostic),
    g ∈ diagsAll d adms i0 → ∃ i adm, adm ∈ adms ∧ g ∈ diagsFor d i adm := by
  intro adms
  induction adms with
  | nil =>
    intro i0 g h
    simp [diagsAll] at h
  | cons a rest ih =>
    intro i0 g h
    rw [diagsAll] at h
    rcases List.mem_append.mp h with h | h
    · exact ⟨i0, a, List.mem_cons_self a rest, h⟩
    · rcases ih (i0 + 1) g h with ⟨i, adm, hmem, hg⟩
      exact ⟨i, adm, List.mem_cons_of_mem a hmem, hg⟩

/-- A day offset drawn as `randint(0, max(0, (discharge - admit).days))` keeps
`admit + offset` within the stay window when `admit ≤ discharge`. -/
theorem day_offset_bounds (lo hi : Int) (x : Nat) (h : lo ≤ hi) :
    lo ≤ lo + ((x % ((max 0 (hi - lo)).toNat + 1) : Nat) : Int) ∧
    lo + ((x % ((max 0 (hi - lo)).toNat + 1) : Nat) : Int) ≤ hi := by
  have hmod : x % ((max 0 (hi - lo)).toNat + 1) < (max 0 (hi - lo)).toNat + 1 :=
    Nat.mod_lt _ (by omega)
  have hmax : max (0 : Int) (hi - lo) = hi - lo := max_eq_right (by omega)
  have hcast : (((max 0 (hi - lo)).toNat : Int)) = hi - lo := by
    rw [Int.toNat_of_nonneg (by omega)]
    exact hmax
  have hcast2 : ((x % ((max 0 (hi - lo)).toNat + 1) : Nat) : Int)
      ≤ ((max 0 (hi - lo)).toNat : Int) := by
    exact_mod_cast Nat.lt_succ_iff.mp hmod
  omega

theorem labsFor_bounds (d : Draws) (i : Nat) (adm : Admission) (l : Lab)
    (hl : l ∈ labsFor d i adm) (hgap : adm.admit_dt ≤ adm.discharge_dt) :
    l.admission_id = adm.admission_id ∧ adm.admit_dt ≤ l.ordered_dt ∧
      l.ordered_dt ≤ adm.discharge_dt := by
  unfold labsFor at hl
  rcases List.mem_map.mp hl with ⟨j, _, hmk⟩
  have hb := day_offset_bounds adm.admit_dt adm.discharge_dt (d.labDayIdx i j) hgap
  rw [← hmk]
  exact ⟨rfl, hb.1, hb.2⟩

theorem diagsFor_bounds (d : Draws) (i : Nat) (adm : Admission) (g : Diagnostic)
    (hg : g ∈ diagsFor d i adm) (hgap : adm.admit_dt ≤ adm.discharge_dt) :
    g.admission_id = adm.admission_id ∧ adm.admit_dt ≤ g.performed_dt ∧
      g.performed_dt ≤ adm.discharge_dt := by
  unfold diagsFor at hg
  by_cases hc : decide (d.diagU i < (0.70 : ℚ)) = true
  · rw [if_pos hc] at hg
    rcases List.mem_singleton.mp hg with hmk
    have hb := day_offset_bounds adm.admit_dt adm.discharge_dt (d.diagDayIdx i) hgap
    rw [hmk]
    exact ⟨rfl, hb.1, hb.2⟩
  · rw [if_neg hc] at hg
    cases hg

/-! ### CNIC helper lemmas -/

theorem data_append (s t : String) : (s ++ t).data = s.data ++ t.data := rfl

theorem generate_cnic_data (x1 x2 x3 : Nat) :
    (generate_cnic x1 x2 x3).data
      = decRepr (10000 + x1 % 90000)
        ++ '-' :: (decRepr (1000000 + x2 % 9000000) ++ '-' :: decRepr (x3 % 10)) := by
  show (Nat.repr (10000 + x1 % 90000) ++ "-" ++ Nat.repr (1000000 + x2 % 9000000) ++ "-"
      ++ Nat.repr (x3 % 10)).data = _
  rw [data_append, data_append, data_append, data_append]
  rw [repr_data, repr_data, repr_data]
  simp

/-! ### The claims -/

/-- Claim C3: for a non-empty list of positively weighted options and any
value drawn from the random source, `weighted_choice` returns exactly one
item, that item is one of the input items, and when the cumulative-weight
scan selects no candidate the last item is returned. -/
theorem weighted_choice_total {α : Type} (pairs : List (α × ℚ)) (r : ℚ)
    (hne : pairs ≠ []) (hpos : ∀ x ∈ pairs, 0 < x.2) :
    ∃ a, weighted_choice pairs r = Except.ok a ∧ a ∈ pairs.map Prod.fst ∧
      (wcLoop pairs 0 r = none → a = (pairs.getLast hne).1) := by
  cases pairs with
  | nil => exact absurd rfl hne
  | cons p ps =>
    refine ⟨(wcLoop (p :: ps) 0 r).getD ((p :: ps).getLast (List.cons_ne_nil p ps)).1,
      rfl, ?_, ?_⟩
    · cases hw : wcLoop (p :: ps) 0 r with
      | none =>
        simp only [hw, Option.getD_none]
        exact List.mem_map_of_mem Prod.fst (List.getLast_mem (List.cons_ne_nil p ps))
      | some a =>
        simp only [hw, Option.getD_some]
        exact wcLoop_mem (p :: ps) 0 r a hw
    · intro h0
      simp [h0]

/-- Claim C10: applied to an empty list, `weighted_choice` fails at the
initial `options, weights = zip(*options_with_weights)` unpacking (a Python
`ValueError`) instead of returning an item or reaching the fallback. -/
theorem weighted_choice_empty_raises (r : ℚ) :
    weighted_choice ([] : List (String × ℚ)) r
      = Except.error "ValueError: not enough values to unpack (expected 2, got 0)" := rfl

/-- Claim C8 (amended): every CNIC string is five digits, a dash, seven
digits, a dash and one digit; the leading digit of the five- and seven-digit
groups is never `0` (the groups are drawn from `[10000, 99999]` and
`[1000000, 9999999]`), so no zero-padding ever occurs and the digit
positions are not all free to be `0`-`9`. -/
theorem cnic_format (x1 x2 x3 : Nat) :
    ∃ g1 g2 g3 : List Char,
      (generate_cnic x1 x2 x3).data = g1 ++ '-' :: (g2 ++ '-' :: g3) ∧
      g1.length = 5 ∧ g2.length = 7 ∧ g3.length = 1 ∧
      (∀ c ∈ g1 ++ (g2 ++ g3), c.isDigit = true) ∧
      g1.head? ≠ some '0' ∧ g2.head? ≠ some '0' := by
  refine ⟨decRepr (10000 + x1 % 90000), decRepr (1000000 + x2 % 9000000),
    decRepr (x3 % 10), generate_cnic_data x1 x2 x3, ?_, ?_, ?_, ?_, ?_, ?_⟩
  · have h1 : 10 ^ 4 ≤ 10000 + x1 % 90000 := by norm_num
    have h2 : 10000 + x1 % 90000 < 10 ^ 5 := by
      have : x1 % 90000 < 90000 := Nat.mod_lt _ (by omega)
      norm_num
      omega
    have := decRepr_length_eq 4 (10000 + x1 % 90000) h1 h2
    omega
  · have h1 : 10 ^ 6 ≤ 1000000 + x2 % 9000000 := by norm_num
    have h2 : 1000000 + x2 % 9000000 < 10 ^ 7 := by
      have : x2 % 9000000 < 9000000 := Nat.mod_lt _ (by omega)
      norm_num
      omega
    have := decRepr_length_eq 6 (1000000 + x2 % 9000000) h1 h2
    omega
  · rw [decRepr_lt (x3 % 10) (Nat.mod_lt _ (by omega))]
    rfl
  · intro c hc
    rcases List.mem_append.mp hc with h | h
    · exact decRepr_all_digits _ c h
    · rcases List.mem_append.mp h with h | h
      · exact decRepr_all_digits _ c h
      · exact decRepr_all_digits _ c h
  · exact decRepr_head_ne_zero _ (by omega)
  · exact decRepr_head_ne_zero _ (by omega)

/-- Claim C8, counterexample to the original wording: the leading digit of a
generated CNIC can never be `0`, contradicting "each digit position,
including the leading digit of each group, can take any value 0 through 9". -/
theorem cnic_leading_zero_impossible :
    ¬ ∃ x1 x2 x3 : Nat, (generate_cnic x1 x2 x3).data.head? = some '0' := by
  rintro ⟨x1, x2, x3, h⟩
  rw [generate_cnic_data] at h
  have hhead := decRepr_head_ne_zero (10000 + x1 % 90000) (by omega)
  cases hd : decRepr (10000 + x1 % 90000) with
  | nil => exact decRepr_ne_nil _ hd
  | cons c t =>
    rw [hd] at h
    rw [hd] at hhead
    simp at h hhead
    exact hhead (h ▸ rfl)

/-- Claim C4: a historic run generates exactly `N` patients with sequential
zero-padded ids `P000001, P000002, ...` (seven characters while the index
stays within six digits), an empty set for `N = 0`, and exactly `3 * N`
admissions. -/
theorem historic_patient_admission_counts (startD endD : Int) (N : Nat)
    (outdir dburl : String) (d : Draws) (dbOk dbWriteOk : Bool) (dbErr : String) :
    (generate_historic_data startD endD N outdir dburl d dbOk dbWriteOk dbErr).patients.length
        = N ∧
    (generate_historic_data startD endD N outdir dburl d dbOk dbWriteOk dbErr).patients.map
        Patient.patient_id
      = (List.range N).map (fun i => String.mk ('P' :: padZ 6 (i + 1))) ∧
    (N = 0 →
      (generate_historic_data startD endD N outdir dburl d dbOk dbWriteOk dbErr).patients = []) ∧
    (∀ p ∈ (generate_historic_data startD endD N outdir dburl d dbOk dbWriteOk dbErr).patients,
      N ≤ 999999 → p.patient_id.length = 7) ∧
    (generate_historic_data startD endD N outdir dburl d dbOk dbWriteOk dbErr).admissions.length
        = 3 * N := by
  refine ⟨?_, ?_, ?_, ?_, ?_⟩
  · rw [run_patients_eq]
    simp
  · rw [run_patients_eq, List.map_map]
    apply List.map_congr_left
    intro i _
    rfl
  · intro h0
    rw [run_patients_eq, h0]
    rfl
  · intro p hp hN
    rw [run_patients_eq] at hp
    rcases List.mem_map.mp hp with ⟨i, hi, hmk⟩
    have hiN : i < N := List.mem_range.mp hi
    rw [← hmk]
    show ('P' :: padZ 6 (i + 1)).length = 7
    rw [List.length_cons]
    have hlt : i + 1 < 10 ^ 6 := by omega
    have hle : (Nat.repr (i + 1)).length ≤ 6 := by
      rw [repr_length_eq]
      exact decRepr_length_le 5 (i + 1) hlt
    rw [padZ_length 6 (i + 1) hle]
  · rw [run_admissions_eq]
    simp only [List.length_map, List.length_range]
    omega

/-- Gap between discharge and admit dates for a live-tick admission. -/
theorem mkLiveAdmission_gap (batch : Nat) (today : Int) (pids : List String) (ld : LiveDraws)
    (i : Nat) :
    (mkLiveAdmission batch today pids ld i).discharge_dt
        - (mkLiveAdmission batch today pids ld i).admit_dt
      = 1 + ((ld.losIdx i % 10 : Nat) : Int) := by
  show today + (1 + ((ld.losIdx i % 10 : Nat) : Int)) - today = _
  omega

/-- Claim C5: every generated admission, historic or live, has
`discharge ≥ admit` and a length of stay in `[1, 12]` (historic) or
`[1, 10]` (live). -/
theorem admission_los_ranges (startD endD : Int) (N : Nat) (outdir dburl : String)
    (d : Draws) (dbOk dbWriteOk : Bool) (dbErr : String)
    (batch : Nat) (today : Int) (ld : LiveDraws) :
    (∀ a ∈ (generate_historic_data startD endD N outdir dburl d dbOk dbWriteOk dbErr).admissions,
      a.admit_dt ≤ a.discharge_dt ∧ 1 ≤ a.discharge_dt - a.admit_dt ∧
        a.discharge_dt - a.admit_dt ≤ 12) ∧
    (∀ la ∈ (live_tick batch today ld).2,
      la.admit_dt ≤ la.discharge_dt ∧ 1 ≤ la.discharge_dt - la.admit_dt ∧
        la.discharge_dt - la.admit_dt ≤ 10) := by
  constructor
  · intro a ha
    have := run_adm_los_bounds startD endD N outdir dburl d dbOk dbWriteOk dbErr a ha
    exact ⟨by omega, this.1, this.2⟩
  · intro la hla
    rcases List.mem_map.mp hla with ⟨i, _, hmk⟩
    rw [← hmk]
    have hgap := mkLiveAdmission_gap batch today
      (((List.range 3).map (mkLivePatient batch ld)).map LivePatient.patient_id) ld i
    have hmod : ld.losIdx i % 10 < 10 := Nat.mod_lt _ (by omega)
    have hcast : ((ld.losIdx i % 10 : Nat) : Int) < 10 := by exact_mod_cast hmod
    have hnn : (0 : Int) ≤ ((ld.losIdx i % 10 : Nat) : Int) := Int.ofNat_nonneg _
    exact ⟨by omega, by omega, by omega⟩

theorem mkPatientH_panel_iff (d : Draws) (i : Nat) :
    (mkPatientH d i).panel_name.isSome = (mkPatientH d i).panel := by
  simp only [mkPatientH]
  by_cases h : d.panelU i < (0.28 : ℚ) <;> simp [h]

/-- Claim C6: a generated historic patient has `panel_name` set exactly when
its `panel` flag is true. -/
theorem patient_panel_iff (startD endD : Int) (N : Nat) (outdir dburl : String) (d : Draws)
    (dbOk dbWriteOk : Bool) (dbErr : String) (p : Patient)
    (hp : p ∈ (generate_historic_data startD endD N outdir dburl d dbOk dbWriteOk dbErr).patients) :
    p.panel_name.isSome = p.panel := by
  rw [run_patients_eq] at hp
  rcases List.mem_map.mp hp with ⟨i, _, hmk⟩
  rw [← hmk]
  exact mkPatientH_panel_iff d i

/-- Claim C7: every lab order and every diagnostic order is dated inside the
closed admit-discharge window of the admission it references. -/
theorem order_dates_within_stay (startD endD : Int) (N : Nat) (outdir dburl : String)
    (d : Draws) (dbOk dbWriteOk : Bool) (dbErr : String) :
    (∀ l ∈ (generate_historic_data startD endD N outdir dburl d dbOk dbWriteOk dbErr).labs,
      ∃ adm ∈ (generate_historic_data startD endD N outdir dburl d dbOk dbWriteOk dbErr).admissions,
        l.admission_id = adm.admission_id ∧
        adm.admit_dt ≤ l.ordered_dt ∧ l.ordered_dt ≤ adm.discharge_dt) ∧
    (∀ g ∈ (generate_historic_data startD endD N outdir dburl d dbOk dbWriteOk dbErr).diagnostics,
      ∃ adm ∈ (generate_historic_data startD endD N outdir dburl d dbOk dbWriteOk dbErr).admissions,
        g.admission_id = adm.admission_id ∧
        adm.admit_dt ≤ g.performed_dt ∧ g.performed_dt ≤ adm.discharge_dt) := by
  constructor
  · intro l hl
    rw [run_labs_eq] at hl
    rcases labsAll_mem d _ 0 l hl with ⟨i, adm, hadm, hfor⟩
    have hlos := run_adm_los_bounds startD endD N outdir dburl d dbOk dbWriteOk dbErr adm hadm
    have := labsFor_bounds d i adm l hfor (by omega)
    exact ⟨adm, hadm, this.1, this.2.1, this.2.2⟩
  · intro g hg
    rw [run_diagnostics_eq] at hg
    rcases diagsAll_mem d _ 0 g hg with ⟨i, adm, hadm, hfor⟩
    have hlos := run_adm_los_bounds startD endD N outdir dburl d dbOk dbWriteOk dbErr adm hadm
    have := diagsFor_bounds d i adm g hfor (by omega)
    exact ⟨adm, hadm, this.1, this.2.1, this.2.2⟩

/-- Claim C2: each revenue record has `los_days = max(1, discharge - admit)`,
room revenue equal to the ward rate (default 4500) times `los_days`, the
three ancillary revenues equal to the sums of the referenced records' prices
(zero when there are none), and an exact grand total. -/
theorem revenue_per_admission (startD endD : Int) (N : Nat) (outdir dburl : String)
    (d : Draws) (dbOk dbWriteOk : Bool) (dbErr : String) (rv : Revenue)
    (hr : rv ∈ (generate_historic_data startD endD N outdir dburl d dbOk dbWriteOk dbErr).revenue) :
    ∃ adm ∈ (generate_historic_data startD endD N outdir dburl d dbOk dbWriteOk dbErr).admissions,
      rv.admission_id = adm.admission_id ∧
      rv.los_days = max 1 (adm.discharge_dt - adm.admit_dt) ∧
      rv.room_rev_pkr = dictGetI ward_rate_pkr adm.ward_type 4500 * rv.los_days ∧
      rv.lab_rev_pkr = labRevOf
        (generate_historic_data startD endD N outdir dburl d dbOk dbWriteOk dbErr).labs
        adm.admission_id ∧
      rv.diag_rev_pkr = diagRevOf
        (generate_historic_data startD endD N outdir dburl d dbOk dbWriteOk dbErr).diagnostics
        adm.admission_id ∧
      rv.pharmacy_rev_pkr = medRevOf
        (generate_historic_data startD endD N outdir dburl d dbOk dbWriteOk dbErr).medications
        adm.admission_id ∧
      rv.total_rev_pkr
        = rv.room_rev_pkr + rv.lab_rev_pkr + rv.diag_rev_pkr + rv.pharmacy_rev_pkr := by
  rw [run_revenue_eq] at hr
  rcases List.mem_map.mp hr with ⟨adm, hadm, hmk⟩
  have hlos := run_adm_los_bounds startD endD N outdir dburl d dbOk dbWriteOk dbErr adm hadm
  refine ⟨adm, hadm, ?_, ?_, ?_, ?_, ?_, ?_, ?_⟩
  · rw [← hmk]
    rfl
  · rw [← hmk]
    show pyOrOne (adm.discharge_dt - adm.admit_dt) = max 1 (adm.discharge_dt - adm.admit_dt)
    unfold pyOrOne
    rw [if_neg (by omega), max_eq_right hlos.1]
  · rw [← hmk]
    rfl
  · rw [← hmk]
    rfl
  · rw [← hmk]
    rfl
  · rw [← hmk]
    rfl
  · rw [← hmk]
    rfl

/-- Claim C1 (amended): summing, over all `(date, department, ward_type)`
occupancy groups, the beds-occupied counts attributable to one admission
gives `discharge - admit + 1` — the number of calendar days of the stay
counted inclusively — which is the length-of-stay plus one, not the
length-of-stay. -/
theorem occupancy_attributable_sum (startD endD : Int) (N : Nat) (outdir dburl : String)
    (d : Draws) (dbOk dbWriteOk : Bool) (dbErr : String) (a : Admission)
    (ha : a ∈ (generate_historic_data startD endD N outdir dburl d dbOk dbWriteOk dbErr).admissions) :
    (((generate_historic_data startD endD N outdir dburl d dbOk dbWriteOk dbErr).occupancy).map
        (fun kc =>
          (generate_historic_data startD endD N outdir dburl d dbOk dbWriteOk dbErr).occ_rows.countP
            (fun row => decide (occKey row = kc.1) && decide (row.admission_id = a.admission_id)))).sum
      = (a.discharge_dt - a.admit_dt).toNat + 1 := by
  have hlos := run_adm_los_bounds startD endD N outdir dburl d dbOk dbWriteOk dbErr a ha
  rw [run_occupancy_eq, run_occ_rows_eq]
  rw [occupancy_agg_sum _ (fun row => decide (row.admission_id = a.admission_id))]
  have hnd : (((generate_historic_data startD endD N outdir dburl d dbOk dbWriteOk
      dbErr).admissions).map Admission.admission_id).Nodup := by
    rw [run_admissions_eq]
    exact historic_adm_ids_nodup startD endD _ d (N * 3)
  rw [countP_flatten_id _ a ha hnd]
  exact occRowsFor_length a (by omega)

/-- Claim C9: when the single database connection attempt fails, the run
records the failure in Run Status, performs no table appends, and still
walks every remaining step through to `done` with the final entity counts. -/
theorem historic_db_failure_resilient (startD endD : Int) (N : Nat) (outdir dburl : String)
    (d : Draws) (dbWriteOk : Bool) (dbErr : String) :
    (generate_historic_data startD endD N outdir dburl d false dbWriteOk dbErr).status.db_connected
        = some false ∧
    (generate_historic_data startD endD N outdir dburl d false dbWriteOk dbErr).status.db_error
        = some dbErr ∧
    (generate_historic_data startD endD N outdir dburl d false dbWriteOk dbErr).db_appends = [] ∧
    (generate_historic_data startD endD N outdir dburl d false dbWriteOk dbErr).steps
        = historic_steps ∧
    (generate_historic_data startD endD N outdir dburl d false dbWriteOk dbErr).status.step
        = some "done" ∧
    (generate_historic_data startD endD N outdir dburl d false dbWriteOk dbErr).status.patients
        = some (generate_historic_data startD endD N outdir dburl d false dbWriteOk
            dbErr).patients.length ∧
    (generate_historic_data startD endD N outdir dburl d false dbWriteOk dbErr).status.admissions
        = some (generate_historic_data startD endD N outdir dburl d false dbWriteOk
            dbErr).admissions.length ∧
    (generate_historic_data startD endD N outdir dburl d false dbWriteOk dbErr).status.labs
        = some (generate_historic_data startD endD N outdir dburl d false dbWriteOk
            dbErr).labs.length ∧
    (generate_historic_data startD endD N outdir dburl d false dbWriteOk dbErr).status.diagnostics
        = some (generate_historic_data startD endD N outdir dburl d false dbWriteOk
            dbErr).diagnostics.length ∧
    (generate_historic_data startD endD N outdir dburl d false dbWriteOk dbErr).status.medications
        = some (generate_historic_data startD endD N outdir dburl d false dbWriteOk
            dbErr).medications.length ∧
    (generate_historic_data startD endD N outdir dburl d false dbWriteOk dbErr).status.revenue_rows
        = some (generate_historic_data startD endD N outdir dburl d false dbWriteOk
            dbErr).revenue.length :=
  ⟨rfl, rfl, rfl, rfl, rfl, rfl, rfl, rfl, rfl, rfl, rfl⟩

/-! ### Concrete instantiation used by the witnesses and counterexamples -/

theorem getD_zero_mem {α : Type} (l : List α) (dflt : α) (h : l ≠ []) : l.getD 0 dflt ∈ l := by
  cases l with
  | nil => exact absurd rfl h
  | cons a t => exact (show (a :: t).getD 0 dflt = a from rfl) ▸ List.mem_cons_self a t

/-- A concrete random source: every stream is constant. -/
def cDraws : Draws := {
  firstNameM := fun _ => "Ahmed", firstNameF := fun _ => "Ayesha", genderIdx := fun _ => 0,
  surnameR := fun _ => 0, panelU := fun _ => 0, dobDate := fun _ => -7000,
  cityIdx := fun _ => 0, cnic1 := fun _ => 0, cnic2 := fun _ => 0, cnic3 := fun _ => 0,
  phoneChoiceIdx := fun _ => 0, phoneD1 := fun _ => 0, phoneD2 := fun _ => 0,
  phoneRest := fun _ => 0, emailStr := fun _ => "a@b.pk", panelIdx := fun _ => 0,
  admitIdx := fun _ => 0, losIdx := fun _ => 0, patientIdx := fun _ => 0,
  deptIdx := fun _ => 0, wardR := fun _ => 0, outcomeIdx := fun _ => 0,
  labGauss := fun _ => 0, labTestR := fun _ _ => 0, labDayIdx := fun _ _ => 0,
  labResult := fun _ _ => 0, diagU := fun _ => 0, diagR := fun _ => 0,
  diagDayIdx := fun _ => 0, medU := fun _ => 0, medIdx := fun _ _ => 0,
  medQtyIdx := fun _ _ => 0 }

def cLiveDraws : LiveDraws := {
  nameStr := fun _ => "Bilal", genderIdx := fun _ => 0, dobDate := fun _ => -9000,
  cityIdx := fun _ => 0, cnic1 := fun _ => 0, cnic2 := fun _ => 0, cnic3 := fun _ => 0,
  phoneChoiceIdx := fun _ => 0, phoneD1 := fun _ => 0, phoneD2 := fun _ => 0,
  phoneRest := fun _ => 0, emailStr := fun _ => "b@c.pk", patientIdx := fun _ => 0,
  losIdx := fun _ => 0, deptIdx := fun _ => 0, outcomeIdx := fun _ => 0 }

/-- A concrete historic run: one patient over January 2024 (dates as day
offsets 0..30), with a healthy database. -/
def cRun : RunResult := generate_historic_data 0 30 1 "amc_output" "db" cDraws true true "err"

def defaultAdmission : Admission :=
  { admission_id := ""
    patient_id := ""
    admit_dt := 0
    discharge_dt := 0
    department := ""
    ward_type := ""
    outcome := "" }

def defaultPatient : Patient :=
  { patient_id := ""
    name := ""
    gender := ""
    dob := 0
    city := ""
    cnic := ""
    phone := ""
    email := ""
    panel := false
    panel_name := none }

def defaultLab : Lab :=
  { lab_id := ""
    admission_id := ""
    patient_id := ""
    test_name := ""
    ordered_dt := 0
    result_value := 0
    unit := ""
    price_pkr := 0 }

def defaultDiagnostic : Diagnostic :=
  { diagnostic_id := ""
    admission_id := ""
    patient_id := ""
    modality := ""
    performed_dt := 0
    price_pkr := 0 }

def defaultRevenue : Revenue :=
  { admission_id := ""
    patient_id := ""
    ward_type := ""
    los_days := 0
    room_rev_pkr := 0
    lab_rev_pkr := 0
    diag_rev_pkr := 0
    pharmacy_rev_pkr := 0
    total_rev_pkr := 0 }

def cAdm : Admission := cRun.admissions.getD 0 defaultAdmission

def cPatient : Patient := cRun.patients.getD 0 defaultPatient

def cLab : Lab := cRun.labs.getD 0 defaultLab

def cDiag : Diagnostic := cRun.diagnostics.getD 0 defaultDiagnostic

def cRev : Revenue := cRun.revenue.getD 0 defaultRevenue

/-! ### Witnesses and counterexamples -/

/-- Claim C1, counterexample to the original wording: in the concrete run the
first admission stays one day (`discharge - admit = 1`) but contributes `2`
occupancy rows (admit and discharge day inclusive), so the group sum is the
length-of-stay plus one, not the length-of-stay. -/
theorem occupancy_sum_counterexample :
    cAdm ∈ cRun.admissions ∧
    (cRun.occupancy.map (fun kc => cRun.occ_rows.countP
        (fun row => decide (occKey row = kc.1) && decide (row.admission_id = cAdm.admission_id)))).sum
      = 2 ∧
    (cAdm.discharge_dt - cAdm.admit_dt).toNat = 1 := by
  refine ⟨?_, ?_, ?_⟩
  · exact getD_zero_mem _ _ (by with_unfolding_all decide)
  · with_unfolding_all decide
  · with_unfolding_all decide

/-- Witness for claim C1 at the concrete run. -/
theorem occupancy_attributable_sum_w :
    cAdm ∈ cRun.admissions ∧
    (cRun.occupancy.map (fun kc => cRun.occ_rows.countP
        (fun row => decide (occKey row = kc.1) && decide (row.admission_id = cAdm.admission_id)))).sum
      = (cAdm.discharge_dt - cAdm.admit_dt).toNat + 1 :=
  ⟨getD_zero_mem _ _ (by with_unfolding_all decide),
    occupancy_attributable_sum 0 30 1 "amc_output" "db" cDraws true true "err" cAdm
      (getD_zero_mem _ _ (by with_unfolding_all decide))⟩

/-- Witness for claim C2 at the concrete run. -/
theorem revenue_per_admission_w :
    cRev ∈ cRun.revenue ∧
    (∃ adm ∈ cRun.admissions,
      cRev.admission_id = adm.admission_id ∧
      cRev.los_days = max 1 (adm.discharge_dt - adm.admit_dt) ∧
      cRev.room_rev_pkr = dictGetI ward_rate_pkr adm.ward_type 4500 * cRev.los_days ∧
      cRev.lab_rev_pkr = labRevOf cRun.labs adm.admission_id ∧
      cRev.diag_rev_pkr = diagRevOf cRun.diagnostics adm.admission_id ∧
      cRev.pharmacy_rev_pkr = medRevOf cRun.medications adm.admission_id ∧
      cRev.total_rev_pkr
        = cRev.room_rev_pkr + cRev.lab_rev_pkr + cRev.diag_rev_pkr + cRev.pharmacy_rev_pkr) :=
  ⟨getD_zero_mem _ _ (by with_unfolding_all decide),
    revenue_per_admission 0 30 1 "amc_output" "db" cDraws true true "err" cRev
      (getD_zero_mem _ _ (by with_unfolding_all decide))⟩

/-- Witness for claim C3: a two-item table with a draw beyond the total
weight exercises the defensive last-item fallback. -/
theorem weighted_choice_total_w :
    ([(("a" : String), (1 : ℚ)), ("b", 1)] ≠ []) ∧
    (∀ x ∈ [(("a" : String), (1 : ℚ)), ("b", 1)], 0 < x.2) ∧
    ∃ a, weighted_choice [(("a" : String), (1 : ℚ)), ("b", 1)] 5 = Except.ok a ∧
      a ∈ ([(("a" : String), (1 : ℚ)), ("b", 1)].map Prod.fst) ∧
      (wcLoop [(("a" : String), (1 : ℚ)), ("b", 1)] 0 5 = none →
        a = ([(("a" : String), (1 : ℚ)), ("b", 1)].getLast (by decide)).1) :=
  ⟨by decide, by with_unfolding_all decide,
    weighted_choice_total [(("a" : String), (1 : ℚ)), ("b", 1)] 5 (by decide)
      (by with_unfolding_all decide)⟩

/-- Witness for claim C4 at the concrete run. -/
theorem historic_patient_admission_counts_w :
    (generate_historic_data 0 30 1 "amc_output" "db" cDraws true true "err").patients.length
        = 1 ∧
    (generate_historic_data 0 30 1 "amc_output" "db" cDraws true true "err").admissions.length
        = 3 * 1 ∧
    (∀ p ∈ (generate_historic_data 0 30 1 "amc_output" "db" cDraws true true "err").patients,
      1 ≤ 999999 → p.patient_id.length = 7) :=
  ⟨(historic_patient_admission_counts 0 30 1 "amc_output" "db" cDraws true true "err").1,
    (historic_patient_admission_counts 0 30 1 "amc_output" "db" cDraws true true "err").2.2.2.2,
    (historic_patient_admission_counts 0 30 1 "amc_output" "db" cDraws true true "err").2.2.2.1⟩

/-- Witness for claim C5 at the concrete run and a concrete live tick. -/
theorem admission_los_ranges_w :
    cAdm ∈ cRun.admissions ∧
    (cAdm.admit_dt ≤ cAdm.discharge_dt ∧ 1 ≤ cAdm.discharge_dt - cAdm.admit_dt ∧
      cAdm.discharge_dt - cAdm.admit_dt ≤ 12) :=
  ⟨getD_zero_mem _ _ (by with_unfolding_all decide),
    (admission_los_ranges 0 30 1 "amc_output" "db" cDraws true true "err" 1 100 cLiveDraws).1
      cAdm (getD_zero_mem _ _ (by with_unfolding_all decide))⟩

/-- Witness for claim C6 at the concrete run. -/
theorem patient_panel_iff_w :
    cPatient ∈ cRun.patients ∧ cPatient.panel_name.isSome = cPatient.panel :=
  ⟨getD_zero_mem _ _ (by with_unfolding_all decide),
    patient_panel_iff 0 30 1 "amc_output" "db" cDraws true true "err" cPatient
      (getD_zero_mem _ _ (by with_unfolding_all decide))⟩

/-- Witness for claim C7 at the concrete run. -/
theorem order_dates_within_stay_w :
    cLab ∈ cRun.labs ∧
    (∃ adm ∈ cRun.admissions, cLab.admission_id = adm.admission_id ∧
      adm.admit_dt ≤ cLab.ordered_dt ∧ cLab.ordered_dt ≤ adm.discharge_dt) :=
  ⟨getD_zero_mem _ _ (by with_unfolding_all decide),
    (order_dates_within_stay 0 30 1 "amc_output" "db" cDraws true true "err").1 cLab
      (getD_zero_mem _ _ (by with_unfolding_all decide))⟩

/-- Witness for claim C8 at a concrete draw. -/
theorem cnic_format_w :
    ∃ g1 g2 g3 : List Char,
      (generate_cnic 0 0 0).data = g1 ++ '-' :: (g2 ++ '-' :: g3) ∧
      g1.length = 5 ∧ g2.length = 7 ∧ g3.length = 1 ∧
      (∀ c ∈ g1 ++ (g2 ++ g3), c.isDigit = true) ∧
      g1.head? ≠ some '0' ∧ g2.head? ≠ some '0' :=
  cnic_format 0 0 0

end AMC
